import Mathlib

/-!
Verification of the target-disk selection and installer orchestration logic of
`src/airootfs/root/install-me.py` (Custom-Archlinux).

The Python functions `_list_block_devices`, `_select_target_device` and
`ask_yes_no`, together with the bootloader-install retry and the
`loader.conf` patching steps of `main`, are shallowly embedded below.
External effects are made explicit parameters:
  * the outcome of `subprocess.run` + `json.loads` in `_list_block_devices`
    becomes an `Except String (List RawBlock)` argument (`Except.error e`
    models the caught exception `e`, `.ok bs` the parsed
    `data.get("blockdevices", [])` list);
  * `input()` in `ask_yes_no` becomes an `Option String` (`none` = `EOFError`);
  * `SysCommand` in the bootloader step becomes a `run : String → Except
    String Unit` oracle;
  * `loader_conf.read_text()` becomes an `Option (List String)` (`none` =
    `FileNotFoundError`, `some lines` = the `splitlines()` result).
-/

set_option autoImplicit false

namespace InstallMe

/-- One entry of the JSON array `data["blockdevices"]` produced by
`lsblk -J -b -o NAME,TYPE,SIZE,ROTA,MODEL,PATH,TRAN`.  Each field is optional
(`b.get(...)` returns `None` for a missing key); sizes and rotational flags
are JSON numbers. -/
structure RawBlock where
  name : Option String := none
  type : Option String := none
  size : Option Int := none
  rota : Option Int := none
  model : Option String := none
  path : Option String := none
  tran : Option String := none
deriving Repr, DecidableEq

/-- The normalized device dict built by `_list_block_devices` (lines 75-82). -/
structure Device where
  name : String
  path : String
  size : Int
  rota : Int
  model : String
  tran : String
deriving Repr, DecidableEq

/-- Python `str.strip()`: drop leading and trailing whitespace. -/
def pyStrip (s : String) : String :=
  ⟨((s.data.dropWhile Char.isWhitespace).reverse.dropWhile Char.isWhitespace).reverse⟩

/-- Python `str.lower()`: lowercase every character. -/
def pyLower (s : String) : String :=
  ⟨s.data.map Char.toLower⟩

/-- Python `str.startswith(pre)`. -/
def pyStartsWith (s pre : String) : Bool :=
  pre.data.isPrefixOf s.data

/-- Lexicographic strict order on code-point lists, as Python compares
strings. -/
def charListLt : List Char → List Char → Bool
  | [], [] => false
  | [], _ :: _ => true
  | _ :: _, [] => false
  | a :: as, b :: bs =>
    a.toNat < b.toNat || (a == b && charListLt as bs)

/-- Python `a >= b` on strings: `b` is not lexicographically above `a`. -/
def pyStrGe (a b : String) : Bool :=
  !(charListLt a.data b.data)

/-- Python `sep.join(parts)`. -/
def pyJoin (sep : String) : List String → String
  | [] => ""
  | [s] => s
  | s :: rest => s ++ sep ++ pyJoin sep rest

/-- Python `str.removeprefix(pre)`: drop `pre` when the string starts with
it, otherwise return the string unchanged. -/
def pyRemovePrefix (s pre : String) : String :=
  if pyStartsWith s pre then ⟨s.data.drop pre.data.length⟩ else s

/-- Normalization of one raw `lsblk` entry, mirroring lines 74-82 of the
source.  Python truthiness of `x or d` is modelled per field: `None`/`""`/`0`
fall back to the default. -/
def normalizeBlock (b : RawBlock) : Device :=
  let name := b.name.getD ""
  { name := name
    path :=
      match b.path with
      | none => "/dev/" ++ name
      | some p => if p = "" then "/dev/" ++ name else p
    size :=
      match b.size with
      | none => 0
      | some v => v
    rota :=
      match b.rota with
      | none => 1
      | some v => if v = 0 then 1 else v
    model := pyStrip (b.model.getD "")
    tran := pyLower (pyStrip (b.tran.getD "")) }

/-- `(b.get("type") or "").lower() != "disk"` filter condition (line 72),
stated positively: the entry is kept. -/
def isDiskType (b : RawBlock) : Bool :=
  pyLower (b.type.getD "") == "disk"

/-- `_list_block_devices` (lines 60-83).  Returns the device list together
with the list of warning lines printed; on an enumeration error it prints a
warning and returns an empty list instead of raising. -/
def _list_block_devices (enumResult : Except String (List RawBlock)) :
    List Device × List String :=
  match enumResult with
  | .error e => ([], ["Failed to enumerate disks via lsblk: " ++ e])
  | .ok bs => ((bs.filter isDiskType).map normalizeBlock, [])

/-- Line 87: `d["tran"] == "nvme" or d["path"].startswith("/dev/nvme")`. -/
def isNvmeDev (d : Device) : Bool :=
  d.tran == "nvme" || pyStartsWith d.path "/dev/nvme"

/-- Line 92: `d["rota"] == 0`. -/
def isSsdDev (d : Device) : Bool :=
  d.rota == 0

/-- Python `max(d :: rest, key=lambda d: d["size"])`: scans left to right,
replacing the current maximum only on a strictly larger key, hence returns
the first maximal element. -/
def maxBySize (d : Device) : List Device → Device
  | [] => d
  | x :: xs => maxBySize (if d.size < x.size then x else d) xs

/-- `_select_target_device` (lines 85-99).  Priority: NVMe > non-rotational >
largest overall.  `none` models the `ValueError` that `max` raises on an
empty sequence (only reachable on an empty input list). -/
def _select_target_device (devices : List Device) : Option (Device × String) :=
  match devices.filter isNvmeDev with
  | n :: ns => some (maxBySize n ns, "NVMe drive")
  | [] =>
    match devices.filter isSsdDev with
    | s :: ss => some (maxBySize s ss, "SSD (non-rotational) drive")
    | [] =>
      match devices with
      | [] => none
      | d :: ds => some (maxBySize d ds, "largest available disk")

/-- The tier of devices from which `_select_target_device` picks its maximum:
the NVMe sublist if non-empty, else the non-rotational sublist if non-empty,
else the whole list (lines 87-99). -/
def winningTier (devices : List Device) : List Device :=
  match devices.filter isNvmeDev with
  | n :: ns => n :: ns
  | [] =>
    match devices.filter isSsdDev with
    | s :: ss => s :: ss
    | [] => devices

/-- The device-detection prefix of `main` (lines 253-264): enumerate, abort
with `ValueError` when no device was found, otherwise run the selector. -/
def main_select (enumResult : Except String (List RawBlock)) :
    Except String (Option (Device × String)) :=
  let devices := (_list_block_devices enumResult).1
  if devices.isEmpty then
    .error "No block devices detected. Aborting."
  else
    .ok (_select_target_device devices)

/-- `ask_yes_no` (lines 40-48).  `inputLine = none` models `EOFError` on
`input()`. -/
def ask_yes_no (inputLine : Option String) (default_yes : Bool) : Bool :=
  let ans := pyStrip (inputLine.getD "")
  if ans = "" then default_yes
  else pyStartsWith (pyLower ans) "y"

/-- The two yes/no confirmation prompts issued by `main`, with the
`default_yes` argument each call passes (lines 267 and 426). -/
def program_prompts : List (String × Bool) :=
  [("Run installation now?", true),
   ("Installation complete. Reboot now?", false)]

/-- Line 366: `systemd_version = '257'`. -/
def systemd_version : String := "257"

/-- Line 365: `bootctl_options = []`. -/
def bootctl_options : List String := []

/-- The first bootloader install command (lines 373-376), including the
Python string comparison `systemd_version >= '258'`. -/
def bootctl_first_cmd (target : String) : String :=
  if pyStrGe systemd_version "258" then
    "arch-chroot " ++ target ++ " bootctl --variables=yes " ++
      pyJoin " " bootctl_options ++ " install"
  else
    "arch-chroot " ++ target ++ " bootctl " ++
      pyJoin " " bootctl_options ++ " install"

/-- The fallback bootloader install command run in the `except SysCallError`
handler (lines 377-382). -/
def bootctl_fallback_cmd (target : String) : String :=
  if pyStrGe systemd_version "258" then
    "arch-chroot " ++ target ++ " bootctl --variables=no " ++
      pyJoin " " bootctl_options ++ " install"
  else
    "arch-chroot " ++ target ++ " bootctl --no-variables " ++
      pyJoin " " bootctl_options ++ " install"

/-- The bootloader install step of `main` (lines 369-382): run the first
command; on `SysCallError` run the fallback once, propagating its outcome.
Returns the final outcome and the list of commands attempted, in order. -/
def install_bootloader (target : String) (run : String → Except String Unit) :
    Except String Unit × List String :=
  match run (bootctl_first_cmd target) with
  | .ok _ => (.ok (), [bootctl_first_cmd target])
  | .error _ =>
    (run (bootctl_fallback_cmd target),
     [bootctl_first_cmd target, bootctl_fallback_cmd target])

/-- The `loader.conf` patch of `main` (lines 398-414).  `existing = none`
models `FileNotFoundError` on `read_text()`; otherwise each line starting
with `default` is replaced and each line starting with `#timeout` is
uncommented (`removeprefix('#')`). -/
def patch_loader_conf (existing : Option (List String)) (default_entry : String) :
    List String :=
  let dflt := "default " ++ default_entry
  match existing with
  | none => [dflt, "timeout 15"]
  | some lines =>
    lines.map fun line =>
      if pyStartsWith line "default" then dflt
      else if pyStartsWith line "#timeout" then pyRemovePrefix line "#"
      else line

/-! ### Lemmas about `maxBySize` (Python `max` with a `size` key) -/

theorem maxBySize_mem (l : List Device) : ∀ d : Device, maxBySize d l ∈ d :: l := by
  induction l with
  | nil => intro d; simp [maxBySize]
  | cons x xs ih =>
    intro d
    show maxBySize (if d.size < x.size then x else d) xs ∈ d :: x :: xs
    rcases List.mem_cons.mp (ih (if d.size < x.size then x else d)) with h1 | h2
    · rw [h1]
      by_cases hc : d.size < x.size <;> simp [hc]
    · exact List.mem_cons_of_mem _ (List.mem_cons_of_mem _ h2)

theorem maxBySize_ge (l : List Device) :
    ∀ d : Device, ∀ x ∈ d :: l, x.size ≤ (maxBySize d l).size := by
  induction l with
  | nil =>
    intro d x hx
    have hxd : x = d := by simpa using hx
    subst hxd
    exact le_refl _
  | cons y ys ih =>
    intro d x hx
    show x.size ≤ (maxBySize (if d.size < y.size then y else d) ys).size
    have hd'le : d.size ≤ (if d.size < y.size then y else d).size ∧
        y.size ≤ (if d.size < y.size then y else d).size := by
      by_cases hc : d.size < y.size
      · rw [if_pos hc]; exact ⟨le_of_lt hc, le_refl _⟩
      · rw [if_neg hc]; exact ⟨le_refl _, le_of_not_lt hc⟩
    have hmax := ih (if d.size < y.size then y else d)
    have hd'max := hmax _ (List.mem_cons_self _ _)
    rcases List.mem_cons.mp hx with h | h
    · subst h; exact le_trans hd'le.1 hd'max
    · rcases List.mem_cons.mp h with h2 | h2
      · subst h2; exact le_trans hd'le.2 hd'max
      · exact hmax x (List.mem_cons_of_mem _ h2)

/-- `maxBySize` returns the *first* maximal element: the scanned list splits
around the result, everything before it strictly smaller, everything after it
no larger. -/
theorem maxBySize_first (l : List Device) : ∀ d : Device,
    ∃ t₁ t₂, d :: l = t₁ ++ maxBySize d l :: t₂ ∧
      (∀ x ∈ t₁, x.size < (maxBySize d l).size) ∧
      (∀ x ∈ t₂, x.size ≤ (maxBySize d l).size) := by
  induction l with
  | nil =>
    intro d
    exact ⟨[], [], rfl, by simp, by simp⟩
  | cons y ys ih =>
    intro d
    have hdef : maxBySize d (y :: ys) = maxBySize (if d.size < y.size then y else d) ys := rfl
    rw [hdef]
    by_cases hc : d.size < y.size
    · rw [if_pos hc]
      obtain ⟨t₁, t₂, heq, h₁, h₂⟩ := ih y
      have hym : y.size ≤ (maxBySize y ys).size :=
        maxBySize_ge ys y y (List.mem_cons_self _ _)
      refine ⟨d :: t₁, t₂, ?_, ?_, h₂⟩
      · rw [List.cons_append, ← heq]
      · intro x hx
        rcases List.mem_cons.mp hx with h | h
        · subst h; exact lt_of_lt_of_le hc hym
        · exact h₁ x h
    · rw [if_neg hc]
      obtain ⟨t₁, t₂, heq, h₁, h₂⟩ := ih d
      cases t₁ with
      | nil =>
        simp only [List.nil_append] at heq
        injection heq with h1 h2
        refine ⟨[], y :: t₂, ?_, by simp, ?_⟩
        · simp only [List.nil_append]
          rw [← h1, ← h2]
        · intro x hx
          rcases List.mem_cons.mp hx with h | h
          · subst h
            rw [← h1]
            exact le_of_not_lt hc
          · exact h₂ x h
      | cons a t₁' =>
        simp only [List.cons_append] at heq
        injection heq with h1 h2
        refine ⟨d :: y :: t₁', t₂, ?_, ?_, h₂⟩
        · simp only [List.cons_append]
          conv_lhs => rw [h2]
        · have hda : d.size = a.size := by rw [h1]
          have hdm : d.size < (maxBySize d ys).size := by
            rw [hda]; exact h₁ a (List.mem_cons_self _ _)
          intro x hx
          rcases List.mem_cons.mp hx with h | h
          · subst h; exact hdm
          · rcases List.mem_cons.mp h with h3 | h3
            · subst h3; exact lt_of_le_of_lt (le_of_not_lt hc) hdm
            · exact h₁ x (List.mem_cons_of_mem a h3)

/-! ### Claims C1-C3, C5: the selection tiers -/

/-- C1: whenever the input contains at least one NVMe device (transport
`"nvme"` or path starting with `"/dev/nvme"`), `_select_target_device`
returns an NVMe device from the list whose size is maximal among the NVMe
devices — regardless of the sizes of the non-NVMe devices — with reason
`"NVMe drive"`. -/
theorem C1_nvme_priority (devices : List Device)
    (hex : ∃ d ∈ devices, isNvmeDev d = true) :
    ∃ c, _select_target_device devices = some (c, "NVMe drive") ∧
      c ∈ devices ∧ isNvmeDev c = true ∧
      ∀ d ∈ devices, isNvmeDev d = true → d.size ≤ c.size := by
  obtain ⟨d0, hd0, hnv⟩ := hex
  have hmem : d0 ∈ devices.filter isNvmeDev := List.mem_filter.mpr ⟨hd0, hnv⟩
  cases hf : devices.filter isNvmeDev with
  | nil => rw [hf] at hmem; cases hmem
  | cons n ns =>
    have hcmem : maxBySize n ns ∈ devices.filter isNvmeDev := by
      rw [hf]; exact maxBySize_mem ns n
    refine ⟨maxBySize n ns, ?_, (List.mem_filter.mp hcmem).1,
      (List.mem_filter.mp hcmem).2, ?_⟩
    · unfold _select_target_device
      rw [hf]
    · intro d hd hdn
      have : d ∈ devices.filter isNvmeDev := List.mem_filter.mpr ⟨hd, hdn⟩
      rw [hf] at this
      exact maxBySize_ge ns n d this

/-- Witness for C1 on the spec's example: a 500 GB NVMe, a 1 TB SATA SSD and
a 4 TB HDD; the NVMe is chosen despite being smallest. -/
theorem C1_nvme_priority_witness :
    ∃ c, _select_target_device
        [(⟨"nvme0n1", "/dev/nvme0n1", 500000000000, 0, "N", "nvme"⟩ : Device),
         ⟨"sda", "/dev/sda", 1000000000000, 0, "S", "sata"⟩,
         ⟨"sdb", "/dev/sdb", 4000000000000, 1, "H", "sata"⟩] = some (c, "NVMe drive") ∧
      c ∈ [(⟨"nvme0n1", "/dev/nvme0n1", 500000000000, 0, "N", "nvme"⟩ : Device),
         ⟨"sda", "/dev/sda", 1000000000000, 0, "S", "sata"⟩,
         ⟨"sdb", "/dev/sdb", 4000000000000, 1, "H", "sata"⟩] ∧ isNvmeDev c = true ∧
      ∀ d ∈ [(⟨"nvme0n1", "/dev/nvme0n1", 500000000000, 0, "N", "nvme"⟩ : Device),
         ⟨"sda", "/dev/sda", 1000000000000, 0, "S", "sata"⟩,
         ⟨"sdb", "/dev/sdb", 4000000000000, 1, "H", "sata"⟩],
        isNvmeDev d = true → d.size ≤ c.size :=
  C1_nvme_priority _ ⟨⟨"nvme0n1", "/dev/nvme0n1", 500000000000, 0, "N", "nvme"⟩,
    by decide, by decide⟩

/-- C2: with no NVMe device present but at least one non-rotational device
(`rota = 0`), `_select_target_device` returns a non-rotational device of
maximal size among the non-rotational ones, with reason
`"SSD (non-rotational) drive"`. -/
theorem C2_ssd_priority (devices : List Device)
    (hno : ∀ d ∈ devices, isNvmeDev d = false)
    (hex : ∃ d ∈ devices, d.rota = 0) :
    ∃ c, _select_target_device devices = some (c, "SSD (non-rotational) drive") ∧
      c ∈ devices ∧ c.rota = 0 ∧
      ∀ d ∈ devices, d.rota = 0 → d.size ≤ c.size := by
  obtain ⟨d0, hd0, hrt⟩ := hex
  have hnil : devices.filter isNvmeDev = [] :=
    List.filter_eq_nil_iff.mpr fun d hd => by simp [hno d hd]
  have hmem : d0 ∈ devices.filter isSsdDev :=
    List.mem_filter.mpr ⟨hd0, by simp [isSsdDev, hrt]⟩
  cases hf : devices.filter isSsdDev with
  | nil => rw [hf] at hmem; cases hmem
  | cons s ss =>
    have hcmem : maxBySize s ss ∈ devices.filter isSsdDev := by
      rw [hf]; exact maxBySize_mem ss s
    refine ⟨maxBySize s ss, ?_, (List.mem_filter.mp hcmem).1, ?_, ?_⟩
    · unfold _select_target_device
      rw [hnil, hf]
    · have := (List.mem_filter.mp hcmem).2
      simpa [isSsdDev] using this
    · intro d hd hdr
      have : d ∈ devices.filter isSsdDev :=
        List.mem_filter.mpr ⟨hd, by simp [isSsdDev, hdr]⟩
      rw [hf] at this
      exact maxBySize_ge ss s d this

/-- Witness for C2 on the spec's example: a 1 TB SATA SSD and a 4 TB HDD;
the SSD is chosen. -/
theorem C2_ssd_priority_witness :
    ∃ c, _select_target_device
        [(⟨"sda", "/dev/sda", 1000000000000, 0, "S", "sata"⟩ : Device),
         ⟨"sdb", "/dev/sdb", 4000000000000, 1, "H", "sata"⟩] =
        some (c, "SSD (non-rotational) drive") ∧
      c ∈ [(⟨"sda", "/dev/sda", 1000000000000, 0, "S", "sata"⟩ : Device),
         ⟨"sdb", "/dev/sdb", 4000000000000, 1, "H", "sata"⟩] ∧ c.rota = 0 ∧
      ∀ d ∈ [(⟨"sda", "/dev/sda", 1000000000000, 0, "S", "sata"⟩ : Device),
         ⟨"sdb", "/dev/sdb", 4000000000000, 1, "H", "sata"⟩],
        d.rota = 0 → d.size ≤ c.size :=
  C2_ssd_priority _ (by decide)
    ⟨⟨"sda", "/dev/sda", 1000000000000, 0, "S", "sata"⟩, by decide, by decide⟩

/-- C3: with only rotational, non-NVMe devices, `_select_target_device`
returns a device of maximal size in the whole list, with reason
`"largest available disk"`. -/
theorem C3_largest_fallback (devices : List Device) (hne : devices ≠ [])
    (hno : ∀ d ∈ devices, isNvmeDev d = false)
    (hrot : ∀ d ∈ devices, d.rota ≠ 0) :
    ∃ c, _select_target_device devices = some (c, "largest available disk") ∧
      c ∈ devices ∧ ∀ d ∈ devices, d.size ≤ c.size := by
  have hnil₁ : devices.filter isNvmeDev = [] :=
    List.filter_eq_nil_iff.mpr fun d hd => by simp [hno d hd]
  have hnil₂ : devices.filter isSsdDev = [] :=
    List.filter_eq_nil_iff.mpr fun d hd => by simp [isSsdDev, hrot d hd]
  cases hd : devices with
  | nil => exact absurd hd hne
  | cons d ds =>
    rw [hd] at hnil₁ hnil₂
    refine ⟨maxBySize d ds, ?_, ?_, ?_⟩
    · unfold _select_target_device
      rw [hnil₁, hnil₂]
    · exact maxBySize_mem ds d
    · intro x hx
      exact maxBySize_ge ds d x hx

/-- Witness for C3 on the spec's example: a 2 TB HDD and a 4 TB HDD; the
4 TB HDD is chosen. -/
theorem C3_largest_fallback_witness :
    ∃ c, _select_target_device
        [(⟨"sdc", "/dev/sdc", 2000000000000, 1, "H", "sata"⟩ : Device),
         ⟨"sdb", "/dev/sdb", 4000000000000, 1, "H", "sata"⟩] =
        some (c, "largest available disk") ∧
      c ∈ [(⟨"sdc", "/dev/sdc", 2000000000000, 1, "H", "sata"⟩ : Device),
         ⟨"sdb", "/dev/sdb", 4000000000000, 1, "H", "sata"⟩] ∧
      ∀ d ∈ [(⟨"sdc", "/dev/sdc", 2000000000000, 1, "H", "sata"⟩ : Device),
         ⟨"sdb", "/dev/sdb", 4000000000000, 1, "H", "sata"⟩], d.size ≤ c.size :=
  C3_largest_fallback _ (by decide) (by decide) (by decide)

/-- C5: `_select_target_device` is a total function on non-empty device
lists: it returns `some` selection (it never hits the empty-`max`
`ValueError` branch), consisting of exactly one device and a reason string,
and the device is an element of the input list. -/
theorem C5_total_selection (devices : List Device) (hne : devices ≠ []) :
    ∃ c r, _select_target_device devices = some (c, r) ∧ c ∈ devices := by
  cases hf : devices.filter isNvmeDev with
  | cons n ns =>
    have hcmem : maxBySize n ns ∈ devices.filter isNvmeDev := by
      rw [hf]; exact maxBySize_mem ns n
    refine ⟨maxBySize n ns, "NVMe drive", ?_, List.mem_of_mem_filter hcmem⟩
    unfold _select_target_device
    rw [hf]
  | nil =>
    cases hs : devices.filter isSsdDev with
    | cons s ss =>
      have hcmem : maxBySize s ss ∈ devices.filter isSsdDev := by
        rw [hs]; exact maxBySize_mem ss s
      refine ⟨maxBySize s ss, "SSD (non-rotational) drive", ?_,
        List.mem_of_mem_filter hcmem⟩
      unfold _select_target_device
      rw [hf, hs]
    | nil =>
      cases hd : devices with
      | nil => exact absurd hd hne
      | cons d ds =>
        rw [hd] at hf hs
        refine ⟨maxBySize d ds, "largest available disk", ?_, ?_⟩
        · unfold _select_target_device
          rw [hf, hs]
        · exact maxBySize_mem ds d

/-- Witness for C5: a single rotational SATA disk is selected. -/
theorem C5_total_selection_witness :
    ∃ c r, _select_target_device [(⟨"sda", "/dev/sda", 42, 1, "M", "sata"⟩ : Device)] =
      some (c, r) ∧ c ∈ [(⟨"sda", "/dev/sda", 42, 1, "M", "sata"⟩ : Device)] :=
  C5_total_selection _ (by decide)

/-! ### Claim C4: stable first-max tie-breaking -/

/-- C4: for every non-empty device list the selector picks, inside the
winning priority tier, the first device of maximal size in input order: the
tier splits as `t₁ ++ chosen :: t₂` with every device before `chosen`
strictly smaller and every device after it no larger, so among equal-size
candidates the earliest wins and the selection is a deterministic function
of the input list. -/
theorem C4_first_max_stable (devices : List Device) (hne : devices ≠ []) :
    ∃ c r t₁ t₂, _select_target_device devices = some (c, r) ∧
      winningTier devices = t₁ ++ c :: t₂ ∧
      (∀ x ∈ t₁, x.size < c.size) ∧ (∀ x ∈ t₂, x.size ≤ c.size) := by
  cases hf : devices.filter isNvmeDev with
  | cons n ns =>
    obtain ⟨t₁, t₂, heq, h₁, h₂⟩ := maxBySize_first ns n
    refine ⟨maxBySize n ns, "NVMe drive", t₁, t₂, ?_, ?_, h₁, h₂⟩
    · unfold _select_target_device
      rw [hf]
    · unfold winningTier
      rw [hf]
      exact heq
  | nil =>
    cases hs : devices.filter isSsdDev with
    | cons s ss =>
      obtain ⟨t₁, t₂, heq, h₁, h₂⟩ := maxBySize_first ss s
      refine ⟨maxBySize s ss, "SSD (non-rotational) drive", t₁, t₂, ?_, ?_, h₁, h₂⟩
      · unfold _select_target_device
        rw [hf, hs]
      · unfold winningTier
        rw [hf, hs]
        exact heq
    | nil =>
      cases hd : devices with
      | nil => exact absurd hd hne
      | cons d ds =>
        rw [hd] at hf hs
        obtain ⟨t₁, t₂, heq, h₁, h₂⟩ := maxBySize_first ds d
        refine ⟨maxBySize d ds, "largest available disk", t₁, t₂, ?_, ?_, h₁, h₂⟩
        · unfold _select_target_device
          rw [hf, hs]
        · unfold winningTier
          rw [hf, hs]
          exact heq

/-- Witness for C4: two equally-sized 100-byte HDDs after a 40-byte one;
the split exhibits the first 100-byte device as the chosen one. -/
theorem C4_first_max_stable_witness :
    ∃ c r t₁ t₂, _select_target_device
        [(⟨"sda", "/dev/sda", 40, 1, "A", "sata"⟩ : Device),
         ⟨"sdb", "/dev/sdb", 100, 1, "B", "sata"⟩,
         ⟨"sdc", "/dev/sdc", 100, 1, "C", "sata"⟩] = some (c, r) ∧
      winningTier
        [(⟨"sda", "/dev/sda", 40, 1, "A", "sata"⟩ : Device),
         ⟨"sdb", "/dev/sdb", 100, 1, "B", "sata"⟩,
         ⟨"sdc", "/dev/sdc", 100, 1, "C", "sata"⟩] = t₁ ++ c :: t₂ ∧
      (∀ x ∈ t₁, x.size < c.size) ∧ (∀ x ∈ t₂, x.size ≤ c.size) :=
  C4_first_max_stable _ (by decide)

/-! ### Claim C6: soft-failing enumeration and the empty-list abort -/

/-- C6: an enumeration error makes `_list_block_devices` return an empty
device list together with a printed warning line instead of raising, and
`main` aborts with `ValueError("No block devices detected. Aborting.")`
whenever the enumerated list is empty, before the selector is invoked. -/
theorem C6_soft_fail_and_abort :
    (∀ e, _list_block_devices (.error e) =
      ([], ["Failed to enumerate disks via lsblk: " ++ e])) ∧
    (∀ er, (_list_block_devices er).1 = [] →
      main_select er = .error "No block devices detected. Aborting.") := by
  refine ⟨fun e => rfl, fun er h => ?_⟩
  simp [main_select, h]

/-- Witness for C6: a failing `lsblk` leads `main` to the fatal abort. -/
theorem C6_soft_fail_and_abort_witness :
    main_select (.error "lsblk failed") =
      .error "No block devices detected. Aborting." :=
  C6_soft_fail_and_abort.2 (.error "lsblk failed") (by decide)

/-! ### Claim C7: prompt defaults on EOF / empty input -/

/-- C7 counterexample: the reboot confirmation prompt of `main` (line 426)
passes `default_yes=False`, so end-of-file and empty input yield a negative
answer there, refuting the claim that every prompt defaults to "yes". -/
theorem C7_counterexample :
    ("Installation complete. Reboot now?", false) ∈ program_prompts ∧
    ask_yes_no none false = false ∧ ask_yes_no (some "") false = false := by
  decide

/-- C7 (amended): for every yes/no confirmation prompt of the program,
end-of-file and empty input both yield that prompt's configured default:
affirmative for the pre-installation prompt (`default_yes=True`), negative
for the reboot prompt (`default_yes=False`). -/
theorem C7_default_on_empty (p : String × Bool) (_hp : p ∈ program_prompts) :
    ask_yes_no none p.2 = p.2 ∧ ask_yes_no (some "") p.2 = p.2 := by
  have hs : pyStrip "" = "" := by decide
  constructor <;> simp [ask_yes_no, hs]

/-- Witness for C7: the pre-installation prompt defaults to yes. -/
theorem C7_default_on_empty_witness :
    ask_yes_no none ("Run installation now?", true).2 =
      ("Run installation now?", true).2 ∧
    ask_yes_no (some "") ("Run installation now?", true).2 =
      ("Run installation now?", true).2 :=
  C7_default_on_empty ("Run installation now?", true) (by decide)

/-! ### Claim C8: single bootloader retry -/

theorem bootctl_first_cmd_eq (t : String) :
    bootctl_first_cmd t = "arch-chroot " ++ t ++ " bootctl  install" := by
  have hv : pyStrGe systemd_version "258" = false := by decide
  apply String.ext
  simp only [bootctl_first_cmd, hv, Bool.false_eq_true, if_false,
    String.data_append, List.append_assoc]
  have hj : (pyJoin " " bootctl_options).data = [] := by decide
  simp [hj]

theorem bootctl_fallback_cmd_eq (t : String) :
    bootctl_fallback_cmd t =
      "arch-chroot " ++ t ++ " bootctl --no-variables  install" := by
  have hv : pyStrGe systemd_version "258" = false := by decide
  apply String.ext
  simp only [bootctl_fallback_cmd, hv, Bool.false_eq_true, if_false,
    String.data_append, List.append_assoc]
  have hj : (pyJoin " " bootctl_options).data = [] := by decide
  simp [hj]

/-- C8: when the first bootloader install command fails with a
`SysCallError`, exactly one retry is issued — the `--no-variables` variant
that leaves the EFI variables untouched — and the overall outcome is that
retry's outcome, so a second failure propagates unchanged and no further
attempt is made. -/
theorem C8_single_retry (target : String) (run : String → Except String Unit)
    (e₁ : String) (hfail : run (bootctl_first_cmd target) = .error e₁) :
    (install_bootloader target run).2 =
      [bootctl_first_cmd target, bootctl_fallback_cmd target] ∧
    bootctl_first_cmd target = "arch-chroot " ++ target ++ " bootctl  install" ∧
    bootctl_fallback_cmd target =
      "arch-chroot " ++ target ++ " bootctl --no-variables  install" ∧
    (install_bootloader target run).1 = run (bootctl_fallback_cmd target) := by
  refine ⟨?_, bootctl_first_cmd_eq target, bootctl_fallback_cmd_eq target, ?_⟩ <;>
    simp [install_bootloader, hfail]

/-- Witness for C8: a run oracle that always fails results in exactly the
two attempts and the propagated second error. -/
theorem C8_single_retry_witness :
    (install_bootloader "/mnt/arch"
        (fun _ : String => (.error "boom" : Except String Unit))).2 =
      [bootctl_first_cmd "/mnt/arch", bootctl_fallback_cmd "/mnt/arch"] ∧
    bootctl_first_cmd "/mnt/arch" =
      "arch-chroot " ++ "/mnt/arch" ++ " bootctl  install" ∧
    bootctl_fallback_cmd "/mnt/arch" =
      "arch-chroot " ++ "/mnt/arch" ++ " bootctl --no-variables  install" ∧
    (install_bootloader "/mnt/arch"
        (fun _ : String => (.error "boom" : Except String Unit))).1 =
      (fun _ : String => (.error "boom" : Except String Unit))
        (bootctl_fallback_cmd "/mnt/arch") :=
  C8_single_retry "/mnt/arch" (fun _ : String => (.error "boom" : Except String Unit))
    "boom" rfl

/-! ### Claim C9: loader.conf patching -/

/-- C9 counterexample: patching a pre-existing `loader.conf` that contains
neither a `default` nor a `#timeout` line leaves it unchanged, so the
patched file contains neither a `default` nor a `timeout` directive. -/
theorem C9_counterexample :
    patch_loader_conf (some ["hello"]) "2024_linux.conf" = ["hello"] ∧
    ∀ l ∈ patch_loader_conf (some ["hello"]) "2024_linux.conf",
      pyStartsWith l "default" = false ∧ pyStartsWith l "timeout" = false := by
  decide

/-- C9 (amended): when `loader.conf` did not exist, the written file is
exactly the two directives `default <entry>` and `timeout 15`; when a
pre-existing file is patched, no line is added or removed: each line
starting with `default` is replaced by the new `default <entry>` directive,
each line starting with `#timeout` is uncommented, and every other line is
kept verbatim — so a directive appears in the result only if a
corresponding line already existed. -/
theorem C9_loader_conf_patch (e : String) (lines : List String) :
    patch_loader_conf none e = ["default " ++ e, "timeout 15"] ∧
    (patch_loader_conf (some lines) e).length = lines.length ∧
    ((∃ l ∈ lines, pyStartsWith l "default" = true) →
      ("default " ++ e) ∈ patch_loader_conf (some lines) e) ∧
    (∀ l ∈ lines, pyStartsWith l "default" = false →
      pyStartsWith l "#timeout" = true →
      pyRemovePrefix l "#" ∈ patch_loader_conf (some lines) e) ∧
    (∀ l ∈ lines, pyStartsWith l "default" = false →
      pyStartsWith l "#timeout" = false →
      l ∈ patch_loader_conf (some lines) e) := by
  refine ⟨rfl, ?_, ?_, ?_, ?_⟩
  · simp [patch_loader_conf]
  · rintro ⟨l, hl, hd⟩
    simp only [patch_loader_conf]
    exact List.mem_map.mpr ⟨l, hl, by simp [hd]⟩
  · intro l hl hd ht
    simp only [patch_loader_conf]
    exact List.mem_map.mpr ⟨l, hl, by simp [hd, ht]⟩
  · intro l hl hd ht
    simp only [patch_loader_conf]
    exact List.mem_map.mpr ⟨l, hl, by simp [hd, ht]⟩

/-- Witness for C9: a fresh file gets both directives; in a patched
pre-existing file the `default` line is replaced and `#timeout 10` is
uncommented. -/
theorem C9_loader_conf_patch_witness :
    patch_loader_conf none "2024_linux.conf" =
      ["default " ++ "2024_linux.conf", "timeout 15"] ∧
    ("default " ++ "2024_linux.conf") ∈
      patch_loader_conf (some ["default old", "#timeout 10", "other"])
        "2024_linux.conf" ∧
    pyRemovePrefix "#timeout 10" "#" ∈
      patch_loader_conf (some ["default old", "#timeout 10", "other"])
        "2024_linux.conf" := by
  have h := C9_loader_conf_patch "2024_linux.conf" ["default old", "#timeout 10", "other"]
  exact ⟨h.1, h.2.2.1 ⟨"default old", by decide, by decide⟩,
    h.2.2.2.1 "#timeout 10" (by decide) (by decide) (by decide)⟩

/-! ### Claim C10: enumeration returns normalized disk entries -/

/-- C10: every entry returned by `_list_block_devices` stems from a raw
entry whose type is `disk` (others are filtered out) and is normalized as
the code prescribes: transport stripped then lowercased (empty when the OS
reports none), model stripped, size defaulting to `0` when missing and
non-negative (given non-negative raw sizes, as `lsblk -b` reports byte
counts), rotational flag defaulting to `1` when missing, and path
defaulting to `/dev/<name>` when missing. -/
theorem C10_enumeration_normalized (bs : List RawBlock)
    (hsz : ∀ b ∈ bs, ∀ v, b.size = some v → 0 ≤ v) :
    ∀ d ∈ (_list_block_devices (.ok bs)).1,
      ∃ b ∈ bs, isDiskType b = true ∧ d = normalizeBlock b ∧
        d.tran = pyLower (pyStrip (b.tran.getD "")) ∧
        d.model = pyStrip (b.model.getD "") ∧
        0 ≤ d.size ∧ (b.size = none → d.size = 0) ∧
        (b.rota = none → d.rota = 1) ∧
        (b.path = none → d.path = "/dev/" ++ b.name.getD "") := by
  intro d hd
  simp only [_list_block_devices] at hd
  obtain ⟨b, hbf, hbd⟩ := List.mem_map.mp hd
  have hb : b ∈ bs := List.mem_of_mem_filter hbf
  have hdt : isDiskType b = true := (List.mem_filter.mp hbf).2
  subst hbd
  refine ⟨b, hb, hdt, rfl, rfl, rfl, ?_, ?_, ?_, ?_⟩
  · cases hbs : b.size with
    | none => simp [normalizeBlock, hbs]
    | some v =>
      have hv := hsz b hb v hbs
      simpa [normalizeBlock, hbs] using hv
  · intro h
    simp [normalizeBlock, h]
  · intro h
    simp [normalizeBlock, h]
  · intro h
    simp [normalizeBlock, h]

/-- Witness for C10 on a single raw entry with a padded mixed-case
transport, a missing path, model and rotational flag. -/
theorem C10_enumeration_normalized_witness :
    ∃ b ∈ [({ name := some "sda", type := some "disk", size := some 5, tran := some " NVMe " } : RawBlock)],
      isDiskType b = true ∧
      (⟨"sda", "/dev/sda", 5, 1, "", "nvme"⟩ : Device) = normalizeBlock b ∧
      (⟨"sda", "/dev/sda", 5, 1, "", "nvme"⟩ : Device).tran =
        pyLower (pyStrip (b.tran.getD "")) ∧
      (⟨"sda", "/dev/sda", 5, 1, "", "nvme"⟩ : Device).model =
        pyStrip (b.model.getD "") ∧
      0 ≤ (⟨"sda", "/dev/sda", 5, 1, "", "nvme"⟩ : Device).size ∧
      (b.size = none → (⟨"sda", "/dev/sda", 5, 1, "", "nvme"⟩ : Device).size = 0) ∧
      (b.rota = none → (⟨"sda", "/dev/sda", 5, 1, "", "nvme"⟩ : Device).rota = 1) ∧
      (b.path = none →
        (⟨"sda", "/dev/sda", 5, 1, "", "nvme"⟩ : Device).path =
          "/dev/" ++ b.name.getD "") :=
  C10_enumeration_normalized
    [({ name := some "sda", type := some "disk", size := some 5, tran := some " NVMe " } : RawBlock)]
    (by decide) ⟨"sda", "/dev/sda", 5, 1, "", "nvme"⟩ (by decide)

end InstallMe
